import Mathlib

/-!
Verification of the tcfg configuration-validation engine.

This file gives a shallow embedding of the two validation engines of the
tcfg repository and proves properties about them:

* `typCheck` embeds `tcfg.type_check.type_check` (src/tcfg/type_check/__init__.py)
  together with its helpers `_type_check_union`, `_type_check_list_`,
  `_type_check_tuple_`, `_type_check_set_`, `_type_check_dict_`,
  `_type_check_literal_` and `_type_check_generic`.
* `cfgValidate` embeds the `CFG*` validator classes of src/tcfg/config.py
  (`CFGType`, `CFGUnionType`, `CFGLiteral`, `CFGGenericAlias.CFGListType`,
  `CFGSetType`, `CFGTupleType`, `CFGDictType`).
* `validateKeys` embeds the key loop of `cfg.__validate__` (src/tcfg/config.py).
* `vkOptions` embeds `ConfigBase.__vk_options__` (src/tcfg/config_base.py).
* `ctValidate` embeds `ct_validate` (src/tcfg/type_check/custom_types.py)
  and `Range` instantiates the `@custom_type`-wrapped `Range` validator.

Python data is embedded as the inductive `PyVal`; the sentinel `MISSING`
(an instance of the attribute-less class `Missing`) is the constructor
`PyVal.missing`.  Error messages are embedded structurally: each error
constructor carries exactly the data interpolated into the corresponding
Python f-string (the ANSI/markup decoration of the text is presentation
and is not modelled).
-/

namespace Tcfg

/-- Embedded Python data values.  `missing` is the `MISSING` sentinel
(`class Missing: pass; MISSING = Missing()`); `none` is Python `None`.
`set` and `dict` carry their elements as lists (Python iteration order). -/
inductive PyVal where
  | none
  | missing
  | bool (b : Bool)
  | int (n : Int)
  | str (s : String)
  | list (xs : List PyVal)
  | tuple (xs : List PyVal)
  | set (xs : List PyVal)
  | dict (xs : List (PyVal × PyVal))
deriving Repr

mutual

/-- Embedding of Python `==` on embedded values.  `bool` is a subclass of
`int` in Python, so `True == 1`; `Missing` defines no `__eq__`, so comparison
with it is identity; sets compare extensionally; dicts compare by key lookup. -/
def pyEq : PyVal → PyVal → Bool
  | .none, .none => true
  | .missing, .missing => true
  | .bool a, .bool b => a == b
  | .bool a, .int n => (if a then (1 : Int) else 0) == n
  | .int n, .bool a => n == (if a then (1 : Int) else 0)
  | .int a, .int b => a == b
  | .str a, .str b => a == b
  | .list xs, .list ys => pyEqList xs ys
  | .tuple xs, .tuple ys => pyEqList xs ys
  | .set xs, .set ys => pySubset xs ys && pySubset ys xs
  | .dict xs, .dict ys => xs.length == ys.length && pyDictSub xs ys
  | _, _ => false
termination_by a b => sizeOf a + sizeOf b

/-- Elementwise equality of Python lists/tuples. -/
def pyEqList : List PyVal → List PyVal → Bool
  | [], [] => true
  | x :: xs, y :: ys => pyEq x y && pyEqList xs ys
  | _, _ => false
termination_by xs ys => sizeOf xs + sizeOf ys

/-- Python `x in ys` membership (by `==`). -/
def pyMem : PyVal → List PyVal → Bool
  | _, [] => false
  | x, y :: ys => pyEq x y || pyMem x ys
termination_by x ys => sizeOf x + sizeOf ys

/-- Every element of the first set is `==` to some element of the second. -/
def pySubset : List PyVal → List PyVal → Bool
  | [], _ => true
  | x :: xs, ys => pyMem x ys && pySubset xs ys
termination_by xs ys => sizeOf xs + sizeOf ys

/-- Every pair of the first dict has a `==` key with `==` value in the second. -/
def pyDictSub : List (PyVal × PyVal) → List (PyVal × PyVal) → Bool
  | [], _ => true
  | (k, v) :: xs, ys => pyAssocEq k v ys && pyDictSub xs ys
termination_by xs ys => sizeOf xs + sizeOf ys

/-- Some pair of the dict has key `==` `k` and value `==` `v`. -/
def pyAssocEq : PyVal → PyVal → List (PyVal × PyVal) → Bool
  | _, _, [] => false
  | k, v, (k2, v2) :: ys => (pyEq k k2 && pyEq v v2) || pyAssocEq k v ys
termination_by k v ys => sizeOf k + sizeOf v + sizeOf ys

end

/-- Direct translation of the Python test `value == MISSING`: the `Missing`
class defines no `__eq__`, so the comparison falls back to identity. -/
def isMissing : PyVal → Bool
  | .missing => true
  | _ => false

mutual

/-- A legitimate configuration datum: primitive, container, mapping or `None`,
with the `MISSING` sentinel appearing nowhere inside. -/
def missingFree : PyVal → Bool
  | .none => true
  | .missing => false
  | .bool _ => true
  | .int _ => true
  | .str _ => true
  | .list xs => missingFreeList xs
  | .tuple xs => missingFreeList xs
  | .set xs => missingFreeList xs
  | .dict xs => missingFreePairs xs
termination_by v => sizeOf v

/-- All elements of the list are missing-free. -/
def missingFreeList : List PyVal → Bool
  | [] => true
  | x :: xs => missingFree x && missingFreeList xs
termination_by xs => sizeOf xs

/-- All keys and values of the pair list are missing-free. -/
def missingFreePairs : List (PyVal × PyVal) → Bool
  | [] => true
  | (k, v) :: xs => missingFree k && missingFree v && missingFreePairs xs
termination_by xs => sizeOf xs

end

/-- `type(v).__name__` for an embedded value. -/
def pyTypeName : PyVal → String
  | .none => "NoneType"
  | .missing => "Missing"
  | .bool _ => "bool"
  | .int _ => "int"
  | .str _ => "str"
  | .list _ => "list"
  | .tuple _ => "tuple"
  | .set _ => "set"
  | .dict _ => "dict"

/-- The plain Python classes that can appear as type annotations or as the
runtime class of a value. -/
inductive PyClassT where
  | noneC | boolC | intC | strC | listC | tupleC | setC | dictC | missingC
deriving Repr, DecidableEq

/-- `type(v)` for an embedded value. -/
def classOfVal : PyVal → PyClassT
  | .none => .noneC
  | .missing => .missingC
  | .bool _ => .boolC
  | .int _ => .intC
  | .str _ => .strC
  | .list _ => .listC
  | .tuple _ => .tupleC
  | .set _ => .setC
  | .dict _ => .dictC

/-- Python `isinstance(v, c)` for a plain class: class equality, except that
`bool` is a subclass of `int`, so a `bool` value is an instance of `int`. -/
def isinstC (v : PyVal) (c : PyClassT) : Bool :=
  match v, c with
  | .bool _, .intC => true
  | v, c => classOfVal v == c

/-- First-occurrence de-duplication by Python `==`, modelling construction
of a Python `set` from an iterable. -/
def pyInsert (acc : List PyVal) (x : PyVal) : List PyVal :=
  if pyMem x acc then acc else acc ++ [x]

/-- `set(xs)` as a de-duplicated list of the original elements. -/
def pyDedup (xs : List PyVal) : List PyVal :=
  xs.foldl pyInsert []

/-! ## The `type_check` engine (src/tcfg/type_check/__init__.py) -/

/-- The scalar kinds used as plain-`type` annotations in the `type_check`
engine (the `isinstance(_type, type)` branch of `type_check`). -/
inductive PyKind where
  | bool | int | str
deriving Repr, DecidableEq

/-- `_type.__name__` of a scalar kind. -/
def kindName : PyKind → String
  | .bool => "bool"
  | .int => "int"
  | .str => "str"

/-- `_type()`: the zero value produced by calling the class. -/
def kindZero : PyKind → PyVal
  | .bool => .bool false
  | .int => .int 0
  | .str => .str ""

/-- The runtime class of a scalar kind. -/
def kindClass : PyKind → PyClassT
  | .bool => .boolC
  | .int => .intC
  | .str => .strC

/-- `isinstance(v, k)` for a scalar kind annotation. -/
def isinstK (v : PyVal) (k : PyKind) : Bool :=
  isinstC v (kindClass k)

/-- Embedded type annotations as dispatched by `type_check`:
`None`, `typing.Any`, plain classes, `typing.Optional[...]`
(a union alias whose `__name__` is `"Optional"`), `A | B` unions,
the generic aliases `list[...]`, `tuple[...]`, `set[...]`, `dict[...]`,
and `typing.Literal[...]`. -/
inductive PyType where
  | noneT
  | anyT
  | kind (k : PyKind)
  | optional (t : PyType)
  | union (ts : List PyType)
  | listT (args : List PyType)
  | tupleT (args : List PyType)
  | setT (args : List PyType)
  | dictT (args : List PyType)
  | literal (vals : List PyVal)
deriving Repr

/-- The `__parents__` accumulator threaded through `type_check`:
pairs of the enclosing annotation and the offending argument index. -/
abbrev Parents := List (PyType × Option Nat)

/-- The data interpolated into each `ConfigTypeError` message raised by the
`type_check` engine, one constructor per `raise` site. -/
inductive TMsg where
  | expectedNone (actual : String)
  | expectedEitherOrNone (expected : PyType) (actual : String)
  | expectedOneOf (expected : List PyType) (actual : String)
  | expectedList (actual : String)
  | expectedListOrTuple (actual : String)
  | expectedListTupleSet (actual : String)
  | expectedDict (actual : String)
  | dictNeedsTwo
  | sizeMismatch (expected found : Nat)
  | typeAtIndex (expected : PyType) (idx : Nat) (actual : String)
  | oneOfLiterals (allowed : List PyVal) (was : PyVal)
  | expectedButWas (expected actual : String)

/-- An error escaping `type_check`: either a `ConfigTypeError` carrying the
accumulated parents and the message data, or a plain Python exception. -/
inductive TErr where
  | cfg (parents : Parents) (msg : TMsg)
  | pyExc (msg : String)

/-- The plain class denoted by an annotation, if any: `isinstance` accepts
only plain classes in its second argument and raises on parameterized
generics. -/
def asClass : PyType → Option PyClassT
  | .kind .bool => some .boolC
  | .kind .int => some .intC
  | .kind .str => some .strC
  | .noneT => some .noneC
  | _ => Option.none

/-- All members of a union resolved to plain classes, if possible. -/
def asClasses : List PyType → Option (List PyClassT)
  | [] => some []
  | t :: ts =>
      match asClass t, asClasses ts with
      | some c, some cs => some (c :: cs)
      | _, _ => Option.none

/-- Calling an annotation with no arguments (`_type.__args__[0]()` in
`_type_check_union`): plain classes and generic aliases construct their
origin's zero value; other aliases are not callable. -/
def zeroCall : PyType → Except TErr PyVal
  | .kind k => .ok (kindZero k)
  | .noneT => .ok .none
  | .listT _ => .ok (.list [])
  | .tupleT _ => .ok (.tuple [])
  | .setT _ => .ok (.set [])
  | .dictT _ => .ok (.dict [])
  | _ => .error (.pyExc "not callable")

mutual

/-- Embedding of `type_check` (src/tcfg/type_check/__init__.py, lines
206-252) together with the per-shape helpers it dispatches to.  Inner
per-element errors in the list/tuple/set helpers are caught and replaced by
the wrapper's own `ConfigTypeError`, so only their success/failure is
observable; the parents passed to the inner calls are therefore threaded
as a single argument of `firstFailIdx`. -/
def typCheck (t : PyType) (v : PyVal) (ps : Parents) : Except TErr PyVal :=
  match t with
  | .noneT =>
      -- `if _type is None: if _value is not None: raise ...; return None`
      match v with
      | .none => .ok .none
      | _ => .error (.cfg (ps ++ [(t, Option.none)]) (.expectedNone (pyTypeName v)))
  | .anyT =>
      if isMissing v then .ok .none else .ok v
  | .optional t0 =>
      -- `_type_check_union`, branch `_type.__name__ == "Optional"`
      if isMissing v then .ok .none
      else
        match asClass t0 with
        | some c =>
            if isinstC v c || isinstC v .noneC then .ok v
            else .error (.cfg (ps ++ [(t, some 0)])
              (.expectedEitherOrNone t0 (pyTypeName v)))
        | Option.none => .error (.pyExc "isinstance() argument 2 cannot be a parameterized generic")
  | .union ts =>
      -- `_type_check_union`, else branch
      if isMissing v then
        match ts with
        | t0 :: _ => zeroCall t0
        | [] => .error (.pyExc "IndexError")
      else
        match asClasses ts with
        | some cs =>
            if cs.any (fun c => isinstC v c) then .ok v
            else .error (.cfg (ps ++ [(t, Option.none)])
              (.expectedOneOf ts (pyTypeName v)))
        | Option.none => .error (.pyExc "isinstance() argument 2 cannot be a parameterized generic")
  | .listT args =>
      -- `_type_check_list_`
      if isMissing v then .ok (.list [])
      else
        match v with
        | .list xs =>
            match args with
            | [] => .ok (.list xs)
            | a :: _ =>
                match firstFailIdx a (ps ++ [(t, some 0)]) xs with
                | Option.none => .ok (.list xs)
                | some i => .error (.cfg (ps ++ [(t, some 0)])
                    (.typeAtIndex a i (pyTypeName (xs.getD i .missing))))
        | _ => .error (.cfg (ps ++ [(t, Option.none)]) (.expectedList (pyTypeName v)))
  | .tupleT args =>
      -- `_type_check_tuple_`: note that every element is checked against
      -- `_type.__args__[0]` while the replacement error names `__args__[idx]`
      if isMissing v then .ok (.tuple [])
      else
        match v with
        | .list xs | .tuple xs =>
            match args with
            | [] => .ok (.tuple xs)
            | a :: _ =>
                if args.length ≠ xs.length then
                  .error (.cfg (ps ++ [(t, Option.none)])
                    (.sizeMismatch args.length xs.length))
                else
                  match firstFailIdx a (ps ++ [(t, some 0)]) xs with
                  | Option.none => .ok (.tuple xs)
                  | some i => .error (.cfg (ps ++ [(t, some i)])
                      (.typeAtIndex (args.getD i a) i (pyTypeName (xs.getD i .missing))))
        | _ => .error (.cfg (ps ++ [(t, Option.none)]) (.expectedListOrTuple (pyTypeName v)))
  | .setT args =>
      -- `_type_check_set_`
      if isMissing v then .ok (.set [])
      else
        match v with
        | .list xs | .tuple xs =>
            match args with
            | [] => .ok (.set (pyDedup xs))
            | a :: _ =>
                match firstFailIdx a (ps ++ [(t, some 0)]) xs with
                | Option.none => .ok (.set (pyDedup xs))
                | some i => .error (.cfg (ps ++ [(t, some 0)])
                    (.typeAtIndex a i (pyTypeName (xs.getD i .missing))))
        | .set xs =>
            match args with
            | [] => .ok (.set (pyDedup xs))
            | a :: _ =>
                match firstFailIdx a (ps ++ [(t, some 0)]) xs with
                | Option.none => .ok (.set (pyDedup xs))
                -- the handler evaluates `_value[idx]`: a Python set is not
                -- subscriptable, so a plain TypeError escapes instead
                | some _ => .error (.pyExc "set object is not subscriptable")
        | _ => .error (.cfg (ps ++ [(t, Option.none)]) (.expectedListTupleSet (pyTypeName v)))
  | .dictT args =>
      -- `_type_check_dict_`; inner errors propagate uncaught
      if isMissing v then .ok (.dict [])
      else
        match v with
        | .dict pairs =>
            match args with
            | [] => .ok (.dict pairs)
            | [_] => .error (.cfg (ps ++ [(t, Option.none)]) .dictNeedsTwo)
            | kT :: vT :: _ =>
                match dictFirstFail kT vT (ps ++ [(t, some 0)]) (ps ++ [(t, some 1)]) pairs with
                | Option.none => .ok (.dict pairs)
                | some e => .error e
        | _ => .error (.cfg (ps ++ [(t, Option.none)]) (.expectedDict (pyTypeName v)))
  | .literal vals =>
      -- `_type_check_literal_`
      if isMissing v then
        match vals with
        | a :: _ => .ok a
        | [] => .error (.pyExc "IndexError")
      else
        if pyMem v vals then .ok v
        else .error (.cfg (ps ++ [(t, Option.none)]) (.oneOfLiterals vals v))
  | .kind k =>
      -- plain-type branch of `type_check`: the isinstance test precedes the
      -- MISSING test, so the default branch is only reachable for values
      -- that are instances of the annotation
      if isinstK v k then
        if isMissing v then .ok (kindZero k) else .ok v
      else
        .error (.cfg (ps ++ [(t, Option.none)])
          (.expectedButWas (kindName k) (pyTypeName v)))
termination_by (sizeOf t, sizeOf v)

/-- Index of the first element failing `type_check` against `a`, if any
(the `idx` counter of the element loops). -/
def firstFailIdx (a : PyType) (ps : Parents) : List PyVal → Option Nat
  | [] => Option.none
  | x :: xs =>
      match typCheck a x ps with
      | .ok _ => (firstFailIdx a ps xs).map (· + 1)
      | .error _ => some 0
termination_by xs => (sizeOf a, 1 + sizeOf xs)

/-- First error raised while checking dict keys against `kT` and values
against `vT` (these errors propagate uncaught). -/
def dictFirstFail (kT vT : PyType) (pk pv : Parents) :
    List (PyVal × PyVal) → Option TErr
  | [] => Option.none
  | (k, val) :: rest =>
      match typCheck kT k pk with
      | .error e => some e
      | .ok _ =>
          match typCheck vT val pv with
          | .error e => some e
          | .ok _ => dictFirstFail kT vT pk pv rest
termination_by pairs => (sizeOf kT + sizeOf vT + 1, 1 + sizeOf pairs)

end

/-! ## The `CFG*` validator classes (src/tcfg/config.py) -/

mutual

/-- Python `repr(v)` of an embedded value. -/
def pyRepr : PyVal → String
  | .none => "None"
  | .missing => "<tcfg.Missing object>"
  | .bool b => if b then "True" else "False"
  | .int n => toString n
  | .str s => "'" ++ s ++ "'"
  | .list xs => "[" ++ pyReprJoin xs ++ "]"
  | .tuple [x] => "(" ++ pyRepr x ++ ",)"
  | .tuple xs => "(" ++ pyReprJoin xs ++ ")"
  | .set [] => "set()"
  | .set xs => "\x7b" ++ pyReprJoin xs ++ "\x7d"
  | .dict xs => "\x7b" ++ pyReprPairs xs ++ "\x7d"
termination_by v => sizeOf v

/-- Comma-joined reprs of list elements. -/
def pyReprJoin : List PyVal → String
  | [] => ""
  | [x] => pyRepr x
  | x :: xs => pyRepr x ++ ", " ++ pyReprJoin xs
termination_by xs => sizeOf xs

/-- Comma-joined `key: value` reprs of dict pairs. -/
def pyReprPairs : List (PyVal × PyVal) → String
  | [] => ""
  | [(k, v)] => pyRepr k ++ ": " ++ pyRepr v
  | (k, v) :: xs => pyRepr k ++ ": " ++ pyRepr v ++ ", " ++ pyReprPairs xs
termination_by xs => sizeOf xs

end

/-- Python `str(v)`: same as `repr` except on strings. -/
def pyStr : PyVal → String
  | .str s => s
  | v => pyRepr v

/-- The validation types built by `new_type` in src/tcfg/config.py.  `prim`
covers the scalar members of `valid_type`; the claims exercised here do not
involve the reserved `TypePath` class (whose import in config.py has no
definition in reserved.py) nor nested `cfg` subclasses, so those variants
are not embedded. -/
inductive CFG where
  | prim (k : PyKind)
  | union (ts : List CFG)
  | literal (vals : List PyVal)
  | listT (elem : CFG)
  | setT (elem : CFG)
  | tupleT (elems : List CFG)
  | dictT (valT : CFG)
deriving Repr

mutual

/-- `str(...)` of a validation type, as interpolated into error messages
(`CFGType.__str__`, `CFGUnionType.__str__`, `CFGLiteral.__str__`, and the
container types' `__str__`). -/
def cfgStr : CFG → String
  | .prim k => kindName k
  | .union ts => cfgStrJoin " | " ts
  | .literal vals =>
      "Literal[" ++ String.intercalate ", " (vals.map (fun v => "\"" ++ pyStr v ++ "\"")) ++ "]"
  | .listT e => "list[" ++ cfgStr e ++ "]"
  | .setT e => "set[" ++ cfgStr e ++ "]"
  | .tupleT es => "tuple[" ++ cfgStrJoin ", " es ++ "]"
  | .dictT vT => "dict[str, " ++ cfgStr vT ++ "]"
termination_by t => sizeOf t

/-- Separator-joined `str(...)` of a list of validation types. -/
def cfgStrJoin (sep : String) : List CFG → String
  | [] => ""
  | [t] => cfgStr t
  | t :: ts => cfgStr t ++ sep ++ cfgStrJoin sep ts
termination_by ts => sizeOf ts

end

/-- The data carried by each `TypeError` raised by the `CFG*` validators,
one constructor per `raise` site: the accumulated parents path and the
values interpolated into the message. -/
inductive CErr where
  | invalidType (path : List String) (actual expected : String)
  | unionInvalid (path : List String) (actual : String) (expected : List String)
  | literalInvalid (path : List String) (value : PyVal) (allowed : List PyVal)
  | invalidValueType (path : List String) (actual expected : String)
  | tupleSize (path : List String) (tooMany : Bool) (expected found : Nat)
  | itemType (path : List String) (actual : String) (idx : Nat) (expected : String)
  | dictValueType (path : List String) (actual : String) (expected : String)

mutual

/-- Embedding of the `validate` methods of the `CFG*` classes of
src/tcfg/config.py: `CFGType.validate` (scalar classes), `CFGUnionType.validate`
(first member that validates wins), `CFGLiteral.validate`, and the
`CFGListType` / `CFGSetType` / `CFGTupleType` / `CFGDictType` validators,
which coerce elements in place and re-wrap element failures. -/
def cfgValidate (t : CFG) (v : PyVal) (ps : List String) : Except CErr PyVal :=
  match t with
  | .prim k =>
      -- CFGType.validate; `is_reserved` is False for the plain classes
      if isinstK v k then .ok v
      else .error (.invalidType ps (pyTypeName v) (kindName k))
  | .union ts =>
      -- CFGUnionType.validate
      match cfgFirstOk ts v (ps ++ ["union", "_type"]) with
      | some r => .ok r
      | Option.none => .error (.unionInvalid ps (pyTypeName v) (cfgStrList ts))
  | .literal vals =>
      -- CFGLiteral.validate; the `is_reserved(get_type(option))` branch
      -- never fires for the embedded value classes
      if pyMem v vals then .ok v
      else .error (.literalInvalid ps v vals)
  | .listT e =>
      -- CFGListType.validate: requires a list, coerces items in place
      match v with
      | .list xs =>
          match cfgItems e xs ps with
          | .ok ys => .ok (.list ys)
          | .error (i, x) => .error (.itemType ps (pyTypeName x) i (cfgStr e))
      | _ => .error (.invalidValueType ps (pyTypeName v) "list")
  | .setT e =>
      -- CFGSetType.validate: requires a list, returns `set(value)`
      match v with
      | .list xs =>
          match cfgItems e xs ps with
          | .ok ys => .ok (.set (pyDedup ys))
          | .error (i, x) => .error (.itemType ps (pyTypeName x) i (cfgStr e))
      | _ => .error (.invalidValueType ps (pyTypeName v) "list")
  | .tupleT es =>
      -- CFGTupleType.validate: requires a list, exact arity, positional types
      match v with
      | .list xs =>
          if es.length ≠ xs.length then
            .error (.tupleSize ps (decide (xs.length > es.length)) es.length xs.length)
          else
            match cfgZip es xs ps with
            | .ok ys => .ok (.tuple ys)
            | .error (i, x, et) => .error (.itemType ps (pyTypeName x) i (cfgStr et))
      | _ => .error (.invalidValueType ps (pyTypeName v) "list")
  | .dictT vT =>
      -- CFGDictType.validate: coerces every value, keys untouched
      match v with
      | .dict pairs =>
          match cfgDict vT pairs ps with
          | .ok qs => .ok (.dict qs)
          | .error x => .error (.dictValueType ps (pyTypeName x) (cfgStr vT))
      | _ => .error (.invalidValueType ps (pyTypeName v) "dict")
termination_by (sizeOf t, 0)

/-- First member of the union whose `validate` does not raise, with its
coerced result (`CFGUnionType.validate`'s try/except loop). -/
def cfgFirstOk (ts : List CFG) (v : PyVal) (ps : List String) : Option PyVal :=
  match ts with
  | [] => Option.none
  | t :: rest =>
      match cfgValidate t v ps with
      | .ok r => some r
      | .error _ => cfgFirstOk rest v ps
termination_by (sizeOf ts, 1)

/-- `str(...)` of each union member (the joined member descriptions of the
union failure message). -/
def cfgStrList : List CFG → List String
  | [] => []
  | t :: ts => cfgStr t :: cfgStrList ts
termination_by ts => (sizeOf ts, 0)

/-- Element loop of `CFGListType.validate`/`CFGSetType.validate`: coerce
each item, or report the first failing index with the original item. -/
def cfgItems (e : CFG) (xs : List PyVal) (ps : List String) :
    Except (Nat × PyVal) (List PyVal) :=
  match xs with
  | [] => .ok []
  | x :: rest =>
      match cfgValidate e x ps with
      | .error _ => .error (0, x)
      | .ok y =>
          match cfgItems e rest ps with
          | .ok ys => .ok (y :: ys)
          | .error (i, z) => .error (i + 1, z)
termination_by (sizeOf e, 1 + xs.length)

/-- Positional loop of `CFGTupleType.validate`: coerce each position
against its own element type, or report the first failing index with the
original item and its declared type. -/
def cfgZip (es : List CFG) (xs : List PyVal) (ps : List String) :
    Except (Nat × PyVal × CFG) (List PyVal) :=
  match es, xs with
  | e :: es', x :: xs' =>
      match cfgValidate e x ps with
      | .error _ => .error (0, x, e)
      | .ok y =>
          match cfgZip es' xs' ps with
          | .ok ys => .ok (y :: ys)
          | .error (i, z, et) => .error (i + 1, z, et)
  | _, _ => .ok []
termination_by (sizeOf es, 1 + xs.length)

/-- Value loop of `CFGDictType.validate`: coerce every value, or report the
first failing item. -/
def cfgDict (vT : CFG) (pairs : List (PyVal × PyVal)) (ps : List String) :
    Except PyVal (List (PyVal × PyVal)) :=
  match pairs with
  | [] => .ok []
  | (k, item) :: rest =>
      match cfgValidate vT item ps with
      | .error _ => .error item
      | .ok y =>
          match cfgDict vT rest ps with
          | .ok qs => .ok ((k, y) :: qs)
          | .error z => .error z
termination_by (sizeOf vT, 1 + pairs.length)

end

/-! ## The key loop of `cfg.__validate__` (src/tcfg/config.py) -/

/-- The compiled field table `self.__tcfg_values__`: field name to its
validation type. -/
abbrev TcfgValues := List (String × CFG)

/-- Dict lookup on the field table. -/
def lookupField : TcfgValues → String → Option CFG
  | [], _ => Option.none
  | (k, t) :: rest, key => if k = key then some t else lookupField rest key

/-- An error escaping `cfg.__validate__`: the strict-mode
`KeyError(f"...; invalid configuration key {key!r}")`, the bare `KeyError`
raised by the `self.__tcfg_values__[key]` subscript itself, or a
validation `TypeError` from the field's type. -/
inductive VErr where
  | invalidKey (path : List String) (key : String)
  | pyKeyError (key : String)
  | typeError (e : CErr)

/-- `setattr(self, key, value)` on the attribute map. -/
def setAttr (attrs : List (String × PyVal)) (key : String) (v : PyVal) :
    List (String × PyVal) :=
  match attrs with
  | [] => [(key, v)]
  | (k, w) :: rest => if k = key then (k, v) :: rest else (k, w) :: setAttr rest key v

/-- The key loop of `cfg.__validate__` (src/tcfg/config.py lines 595-611):
for each item of `data`, first the strict check
`if key not in self.__tcfg_values__ and self.__tcfg_strict__: raise KeyError(...)`,
then the unconditional subscript `self.__tcfg_values__[key]["type"]`
(which itself raises `KeyError` for an unknown key), then `validate` and
`setattr`.  `attrs` is the attribute state left by `__tcfg_setup__`
(every declared field set to its default); nested-`cfg` fields are outside
the embedded fragment, so the `isinstance(..., CFGType) and cfg in
type.__bases__` test is always false and the second loop sets nothing. -/
def validateKeys (values : TcfgValues) (strict : Bool) (ps : List String)
    (attrs : List (String × PyVal)) :
    List (String × PyVal) → Except VErr (List (String × PyVal))
  | [] => .ok attrs
  | (key, v) :: rest =>
      if (lookupField values key).isNone && strict then
        .error (.invalidKey ps key)
      else
        match lookupField values key with
        | Option.none => .error (.pyKeyError key)
        | some t =>
            match cfgValidate t v (ps ++ [key]) with
            | .error e => .error (.typeError e)
            | .ok r => validateKeys values strict ps (setAttr attrs key r) rest

/-! ## `Options` fields and `ConfigBase.__vk_options__` (src/tcfg/config_base.py) -/

/-- An `Options` attribute as constructed by `types_default.Options`: the
de-duplicated option values and the declared default (the constructor
requires a declared default to be one of the options). -/
structure OptionsAttr where
  opts : List PyVal
  dflt : PyVal

/-- `Options.types`: the set of runtime classes of the option values. -/
def optTypes (opts : List PyVal) : List PyClassT :=
  (opts.map classOfVal).foldl (fun acc c => if acc.contains c then acc else acc ++ [c]) []

/-- The data of the two `TypeError`s of `__vk_options__`: the
"must be on of these type(s)" failure and the
"must be one of the following values" failure. -/
inductive OErr where
  | mustBeOneOfTypes (path : List String) (types : List PyClassT) (actual : PyClassT)
  | mustBeOneOfValues (path : List String) (allowed : List PyVal) (was : PyVal)

/-- `ConfigBase.__vk_options__` (src/tcfg/config_base.py lines 419-439):
first `isinstance(value, attr.types)`, then `value in attr.options`,
in that order. -/
def vkOptions (attr : OptionsAttr) (value : PyVal) (path : List String) :
    Except OErr Unit :=
  if ¬ (optTypes attr.opts).any (fun c => isinstC value c) then
    .error (.mustBeOneOfTypes path (optTypes attr.opts) (classOfVal value))
  else if ¬ pyMem value attr.opts then
    .error (.mustBeOneOfValues path attr.opts value)
  else .ok ()

/-- The value an `Options` field ends with: `ConfigBase.__init__` sets the
attribute to `__get_default__(attr)` (= `attr.default`), and `__parse__`
re-sets it to the supplied value only after `__vk_options__` accepts it. -/
def optionFieldValue (attr : OptionsAttr) (supplied : Option PyVal)
    (path : List String) : Except OErr PyVal :=
  match supplied with
  | Option.none => .ok attr.dflt
  | some v => (vkOptions attr v path).map (fun _ => v)

/-! ## Custom types: `ct_validate` and `Range`
(src/tcfg/type_check/custom_types.py) -/

/-- The `_default_` policy of a `@custom_type` class: the decorator's
`default` argument (`MISSING`, an `ARG(i)` reference, or a constant). -/
inductive CTDefault where
  | missing
  | arg (i : Nat)
  | const (v : PyVal)

/-- An exception raised by the wrapped validator body: a plain `TypeError`,
or a `CustomTypeError` with message and optional argument name. -/
inductive CTExc where
  | typeError (msg : String)
  | customError (msg : String) (arg : Option String)

/-- A `@custom_type`-decorated class: the bound `__args__`, the declared
argument names (`_validator_args_`) and annotations
(`_validator_arg_types_`), the default policy, the vararg declaration
(`_vararg_ = (name, annotation or MISSING)`), the return annotation, and
the wrapped validator body. -/
structure CustomT where
  args : List PyVal
  validatorArgs : List String
  argTypes : List (String × PyClassT)
  dflt : CTDefault
  vararg : Option (String × Option PyClassT)
  returnAnno : Option PyClassT
  validator : PyVal → List PyVal → Except CTExc PyVal

/-- An error escaping `ct_validate`: a `ConfigTypeError` from the bound
argument checks, a `ConfigTypeError` re-raised from the validator body's
`TypeError` or `CustomTypeError`, or a plain Python exception. -/
inductive CTErr where
  | argType (argIdx : Nat) (argName : String) (annotated : PyClassT) (found : String)
  | varargType (argIdx : Nat) (name : String) (annotated : PyClassT) (found : String)
  | fromTypeError (msg : String)
  | fromCustomError (argIdx : Option Nat) (msg : String)
  | pyError (msg : String)

/-- Dict lookup in `_validator_arg_types_`. -/
def lookupAnno : List (String × PyClassT) → String → Option PyClassT
  | [], _ => Option.none
  | (k, c) :: rest, nm => if k = nm then some c else lookupAnno rest nm

/-- `list.index(name)` over the declared argument names. -/
def idxOf : List String → String → Option Nat
  | [], _ => Option.none
  | s :: rest, nm => if s = nm then some 0 else (idxOf rest nm).map (· + 1)

/-- The bound-argument loop of `ct_validate`: walk
`zip(ct.__args__, ct._validator_args_)` and report the first argument whose
value is not an instance of its annotation. -/
def ctArgCheck (annos : List (String × PyClassT)) :
    List PyVal → List String → Nat → Option CTErr
  | arg :: args, targ :: targs, idx =>
      match lookupAnno annos targ with
      | some c =>
          if ¬ isinstC arg c then some (.argType idx targ c (pyTypeName arg))
          else ctArgCheck annos args targs (idx + 1)
      | Option.none => ctArgCheck annos args targs (idx + 1)
  | _, _, _ => Option.none

/-- The vararg loop of `ct_validate` over `ct.__args__[idx + 1 :]`. -/
def varargLoop (nm : String) (c : PyClassT) : List PyVal → Nat → Option CTErr
  | [], _ => Option.none
  | a :: rest, i =>
      if ¬ isinstC a c then some (.varargType i nm c (pyTypeName a))
      else varargLoop nm c rest (i + 1)

/-- The vararg check of `ct_validate`: runs only when a vararg is declared
with a non-`MISSING` annotation (the `idx < len(...)` conjunct always
holds, since the zip loop leaves `idx = min(len(args), len(names)) - 1`). -/
def ctVarargCheck (ct : CustomT) : Option CTErr :=
  match ct.vararg with
  | some (nm, some c) =>
      varargLoop nm c (ct.args.drop (min ct.args.length ct.validatorArgs.length))
        (min ct.args.length ct.validatorArgs.length)
  | _ => Option.none

/-- `_type()` zero value of a plain class. -/
def classZero : PyClassT → PyVal
  | .noneC => .none
  | .boolC => .bool false
  | .intC => .int 0
  | .strC => .str ""
  | .listC => .list []
  | .tupleC => .tuple []
  | .setC => .set []
  | .dictC => .dict []
  | .missingC => .missing

/-- The "Build default if MISSING" block of `ct_validate`; the `try` block's
bare `except` turns any failure (e.g. an out-of-range `ARG` index) into
`None`. -/
def ctDefaultValue (ct : CustomT) : Except CTErr PyVal :=
  match ct.dflt with
  | .missing =>
      match ct.returnAnno with
      | Option.none => .ok .none
      | some c => .ok (classZero c)
  | .arg i =>
      match ct.args.get? i with
      | some a => .ok a
      | Option.none => .ok .none
  | .const v => .ok v

/-- Embedding of `ct_validate` (src/tcfg/type_check/custom_types.py lines
114-173): validate the bound arguments, then the varargs, then either build
the default (value `MISSING`) or invoke the wrapped validator with
`(value, *ct.__args__[:stop])`, mapping its `TypeError` or
`CustomTypeError` to a `ConfigTypeError`. -/
def ctValidate (ct : CustomT) (value : PyVal) : Except CTErr PyVal :=
  match ctArgCheck ct.argTypes ct.args ct.validatorArgs 0 with
  | some e => .error e
  | Option.none =>
      match ctVarargCheck ct with
      | some e => .error e
      | Option.none =>
          if isMissing value then ctDefaultValue ct
          else
            let stop := match ct.vararg with
              | Option.none => ct.validatorArgs.length
              | some _ => ct.args.length
            match ct.validator value (ct.args.take stop) with
            | .ok r => .ok r
            | .error (.typeError m) => .error (.fromTypeError m)
            | .error (.customError m argName) =>
                match argName with
                | Option.none => .error (.fromCustomError Option.none m)
                | some nm =>
                    match idxOf ct.validatorArgs nm with
                    | some i => .error (.fromCustomError (some i) m)
                    | Option.none => .error (.pyError "ValueError: not in list")

/-- Python int value of an `int` (or `bool`, a subclass of `int`). -/
def asIntVal : PyVal → Option Int
  | .int n => some n
  | .bool b => some (if b then 1 else 0)
  | _ => Option.none

/-- The wrapped body of `Range` (src/tcfg/type_check/custom_types.py lines
214-222): reject non-`int` values, then raise
`TypeError(f"Expected {min} <= value < {max}; but was {value}")` outside
the half-open bound, else return the value. -/
def rangeBody (value : PyVal) (args : List PyVal) : Except CTExc PyVal :=
  let minA := args.getD 0 (.int 0)
  let maxA := args.getD 1 (.int 0)
  match asIntVal value with
  | Option.none => .error (.typeError "Expected value to be an int")
  | some n =>
      match asIntVal minA, asIntVal maxA with
      | some mn, some mx =>
          if n < mn || n ≥ mx then
            .error (.typeError
              ("Expected " ++ pyStr minA ++ " <= value < " ++ pyStr maxA
                ++ "; but was " ++ pyStr value))
          else .ok value
      | _, _ => .error (.typeError "unsupported comparison")

/-- `Range[mn, mx]`: the `@custom_type(default=ARG(0))`-decorated `Range`
with its two bound arguments (`min: int = 0`, `max: int = 0`, no vararg,
no return annotation). -/
def RangeCT (mn mx : PyVal) : CustomT :=
  { args := [mn, mx]
  , validatorArgs := ["min", "max"]
  , argTypes := [("min", .intC), ("max", .intC)]
  , dflt := .arg 0
  , vararg := Option.none
  , returnAnno := Option.none
  , validator := rangeBody }

/-- The wrapped body of `GreaterThan` (src/tcfg/type_check/custom_types.py
lines 192-200): reject non-`int` values, then raise
`TypeError(f"Expected value to be greater than {min}; was {value}")` when
`value <= min`, else return the value. -/
def greaterThanBody (value : PyVal) (args : List PyVal) : Except CTExc PyVal :=
  let minA := args.getD 0 (.int 0)
  match asIntVal value with
  | Option.none =>
      .error (.typeError ("Expected value to be 'int'; was '" ++ pyTypeName value ++ "'"))
  | some n =>
      match asIntVal minA with
      | some mn =>
          if n ≤ mn then
            .error (.typeError
              ("Expected value to be greater than " ++ pyStr minA ++ "; was " ++ pyStr value))
          else .ok value
      | Option.none => .error (.typeError "unsupported comparison")

/-- `GreaterThan[mn]`: the `@custom_type(default=ARG(0))`-decorated
`GreaterThan` with its bound argument (`min: int = 0`). -/
def GreaterThanCT (mn : PyVal) : CustomT :=
  { args := [mn]
  , validatorArgs := ["min"]
  , argTypes := [("min", .intC)]
  , dflt := .arg 0
  , vararg := Option.none
  , returnAnno := Option.none
  , validator := greaterThanBody }

/-- Scalar (non-container) values — the shapes `typing.Literal` admits as
arguments. -/
def scalarVal : PyVal → Bool
  | .none => true
  | .bool _ => true
  | .int _ => true
  | .str _ => true
  | _ => false

/-- The node shapes for which default idempotence holds in the `type_check`
engine; `default_idempotence_counterexample` exhibits the failure of every
excluded shape. -/
def goodNode : PyType → Bool
  | .anyT => true
  | .optional t0 => (asClass t0).isSome
  | .union [] => false
  | .union ts => ts.all (fun t2 => (asClass t2).isSome)
  | .listT _ => true
  | .setT _ => true
  | .dictT args => args.length != 1
  | .tupleT args => args.isEmpty
  | .literal [] => false
  | .literal (v0 :: _) => scalarVal v0
  | _ => false

/-! ## Theorems -/

/-- Claim C8: the `Missing` sentinel is disjoint from every legitimate data
value.  `Missing` defines no `__eq__`, so `v == MISSING` compares by
identity: it is false for every missing-free value (primitive, container,
mapping, or `None`), true exactly for the sentinel itself, and the tests
`_value == MISSING` in the engine coincide with the identity test
`isMissing`. -/
theorem missing_disjoint_from_values :
    (∀ v : PyVal, missingFree v = true →
      pyEq v .missing = false ∧ pyEq .missing v = false)
    ∧ (∀ v : PyVal, pyEq v .missing = true ↔ v = .missing)
    ∧ (∀ v : PyVal, pyEq v .missing = isMissing v) := by
  refine ⟨?_, ?_, ?_⟩
  · intro v h
    cases v <;> simp_all [pyEq, missingFree]
  · intro v
    cases v <;> simp [pyEq]
  · intro v
    cases v <;> simp [pyEq, isMissing]

/-- Witness for C8 at the concrete value `3`. -/
theorem missing_disjoint_from_values_witness :
    missingFree (.int 3) = true ∧ pyEq (.int 3) .missing = false
      ∧ pyEq .missing (.int 3) = false :=
  ⟨by simp [missingFree],
   (missing_disjoint_from_values.1 (.int 3) (by simp [missingFree])).1,
   (missing_disjoint_from_values.1 (.int 3) (by simp [missingFree])).2⟩

/-- Claim C4 (code bug): in the plain-type branch of `type_check` the
`isinstance(_value, _type)` test precedes the `_value == MISSING` test, and
the sentinel is not an instance of any scalar kind, so validating an absent
scalar raises `ConfigTypeError("Expected '<kind>' but was 'Missing'")`
instead of delegating to the default branch `return _type()` just below
it — which is thereby unreachable.  Present values of the right kind are
returned unchanged. -/
theorem scalar_missing_raises :
    typCheck (.kind .int) .missing []
      = .error (.cfg [(.kind .int, Option.none)] (.expectedButWas "int" "Missing"))
    ∧ typCheck (.kind .str) .missing []
      = .error (.cfg [(.kind .str, Option.none)] (.expectedButWas "str" "Missing"))
    ∧ typCheck (.kind .bool) .missing []
      = .error (.cfg [(.kind .bool, Option.none)] (.expectedButWas "bool" "Missing"))
    ∧ typCheck (.kind .int) (.int 8081) [] = .ok (.int 8081)
    ∧ typCheck (.kind .int) (.str "x") []
      = .error (.cfg [(.kind .int, Option.none)] (.expectedButWas "int" "str")) := by
  refine ⟨?_, ?_, ?_, ?_, ?_⟩ <;>
    simp [typCheck, isinstK, isinstC, classOfVal, kindClass, kindName, pyTypeName, isMissing]

/-- Claim C7: `Range(min=0, max=10)` rejects `15` with a `ConfigTypeError`
whose message names the bound `0 <= value < 10`, and accepts `5`,
returning it. -/
theorem range_bound_argument :
    ctValidate (RangeCT (.int 0) (.int 10)) (.int 15)
      = .error (.fromTypeError "Expected 0 <= value < 10; but was 15")
    ∧ ctValidate (RangeCT (.int 0) (.int 10)) (.int 5) = .ok (.int 5) := by
  constructor
  · simp [ctValidate, RangeCT, ctArgCheck, ctVarargCheck, lookupAnno, isinstC, classOfVal,
      isMissing, rangeBody, asIntVal, pyStr, pyRepr]
    rfl
  · simp [ctValidate, RangeCT, ctArgCheck, ctVarargCheck, lookupAnno, isinstC, classOfVal,
      isMissing, rangeBody, asIntVal]

/-- Claim C5 (code bug): with `strict=True` an unknown key raises the
`KeyError` naming the offending key; with `strict=False` the guard is
skipped but the unconditional subscript `self.__tcfg_values__[key]["type"]`
still raises a bare `KeyError` instead of ignoring the key, so non-strict
building does not succeed.  A declared key is validated and set. -/
theorem strict_key_behavior :
    validateKeys [("port", .prim .int)] true ["Config"] [("port", .int 0)] [("typo", .int 1)]
      = .error (.invalidKey ["Config"] "typo")
    ∧ validateKeys [("port", .prim .int)] false ["Config"] [("port", .int 0)] [("typo", .int 1)]
      = .error (.pyKeyError "typo")
    ∧ validateKeys [("port", .prim .int)] true ["Config"] [("port", .int 0)] [("port", .int 8081)]
      = .ok [("port", .int 8081)]
    ∧ validateKeys [("port", .prim .int)] false ["Config"] [("port", .int 0)] [("port", .int 8081)]
      = .ok [("port", .int 8081)] := by
  refine ⟨?_, ?_, ?_, ?_⟩ <;>
    simp [validateKeys, lookupField, cfgValidate, setAttr, isinstK, isinstC, classOfVal,
      kindClass]

/-- Claim C6: an `Options` field yields the declared default when absent;
a present value is first checked against the option types
("must be on of these type(s)"), then by membership against the option
values ("must be one of the following values"), in that order, and is set
unchanged when both pass. -/
theorem options_type_then_value (attr : OptionsAttr) (p : List String) :
    optionFieldValue attr Option.none p = .ok attr.dflt
    ∧ (∀ v, (optTypes attr.opts).any (fun c => isinstC v c) = false →
        optionFieldValue attr (some v) p
          = .error (.mustBeOneOfTypes p (optTypes attr.opts) (classOfVal v)))
    ∧ (∀ v, (optTypes attr.opts).any (fun c => isinstC v c) = true →
        pyMem v attr.opts = false →
        optionFieldValue attr (some v) p
          = .error (.mustBeOneOfValues p attr.opts v))
    ∧ (∀ v, (optTypes attr.opts).any (fun c => isinstC v c) = true →
        pyMem v attr.opts = true →
        optionFieldValue attr (some v) p = .ok v) := by
  refine ⟨rfl, ?_, ?_, ?_⟩
  · intro v h
    simp [optionFieldValue, vkOptions, h, Except.map]
  · intro v h h2
    simp [optionFieldValue, vkOptions, h, h2, Except.map]
  · intro v h h2
    simp [optionFieldValue, vkOptions, h, h2, Except.map]

/-- Witness for C6 with options `{"a", "b"}`, default `"a"`: absent yields
`"a"`; `3` is a type mismatch; `"c"` is a value mismatch; `"b"` passes. -/
theorem options_type_then_value_witness :
    optionFieldValue ⟨[.str "a", .str "b"], .str "a"⟩ Option.none [] = .ok (.str "a")
    ∧ optionFieldValue ⟨[.str "a", .str "b"], .str "a"⟩ (some (.int 3)) []
      = .error (.mustBeOneOfTypes [] (optTypes [.str "a", .str "b"]) .intC)
    ∧ optionFieldValue ⟨[.str "a", .str "b"], .str "a"⟩ (some (.str "c")) []
      = .error (.mustBeOneOfValues [] [.str "a", .str "b"] (.str "c"))
    ∧ optionFieldValue ⟨[.str "a", .str "b"], .str "a"⟩ (some (.str "b")) [] = .ok (.str "b") :=
  ⟨(options_type_then_value ⟨[.str "a", .str "b"], .str "a"⟩ []).1,
   (options_type_then_value ⟨[.str "a", .str "b"], .str "a"⟩ []).2.1 (.int 3)
     (by simp [optTypes, classOfVal, isinstC]),
   (options_type_then_value ⟨[.str "a", .str "b"], .str "a"⟩ []).2.2.1 (.str "c")
     (by simp [optTypes, classOfVal, isinstC]) (by simp [pyMem, pyEq]),
   (options_type_then_value ⟨[.str "a", .str "b"], .str "a"⟩ []).2.2.2 (.str "b")
     (by simp [optTypes, classOfVal, isinstC]) (by simp [pyMem, pyEq])⟩

/-- Claim C2: `CFGUnionType.validate` tries the members strictly in
declaration order — if `A` validates, its coerced result is returned and
`B` is never consulted; if no member validates, the `TypeError` carries the
`str(...)` descriptions of all members.  Concretely, for
`tuple[int] | list[int]` and the value `[1]`, which both members accept,
the result is the first member's coercion `(1,)`, not the second's `[1]`. -/
theorem union_first_match (A B : CFG) (v : PyVal) (p : List String) :
    (∀ r, cfgValidate A v (p ++ ["union", "_type"]) = .ok r →
        cfgValidate (.union [A, B]) v p = .ok r)
    ∧ ((cfgValidate A v (p ++ ["union", "_type"])).isOk = false →
       (cfgValidate B v (p ++ ["union", "_type"])).isOk = false →
       cfgValidate (.union [A, B]) v p
         = .error (.unionInvalid p (pyTypeName v) [cfgStr A, cfgStr B]))
    ∧ cfgValidate (.union [.tupleT [.prim .int], .listT (.prim .int)]) (.list [.int 1]) []
        = .ok (.tuple [.int 1])
    ∧ cfgValidate (.listT (.prim .int)) (.list [.int 1]) ["union", "_type"]
        = .ok (.list [.int 1]) := by
  refine ⟨?_, ?_, ?_, ?_⟩
  · intro r h
    simp [cfgValidate, cfgFirstOk, h]
  · intro hA hB
    rcases hA' : cfgValidate A v (p ++ ["union", "_type"]) with eA | rA
    · rcases hB' : cfgValidate B v (p ++ ["union", "_type"]) with eB | rB
      · simp [cfgValidate, cfgFirstOk, hA', hB', cfgStrList]
      · rw [hB'] at hB
        simp [Except.isOk, Except.toBool] at hB
    · rw [hA'] at hA
      simp [Except.isOk, Except.toBool] at hA
  · simp [cfgValidate, cfgFirstOk, cfgZip, isinstK, isinstC, classOfVal, kindClass]
  · simp [cfgValidate, cfgItems, isinstK, isinstC, classOfVal, kindClass]

/-- Witness for C2: `int | str` accepts `7` through the first member, and
rejects `None` naming both member descriptions. -/
theorem union_first_match_witness :
    cfgValidate (.union [.prim .int, .prim .str]) (.int 7) [] = .ok (.int 7)
    ∧ cfgValidate (.union [.prim .int, .prim .str]) PyVal.none []
      = .error (.unionInvalid [] "NoneType" [cfgStr (.prim .int), cfgStr (.prim .str)]) :=
  ⟨(union_first_match (.prim .int) (.prim .str) (.int 7) []).1 (.int 7)
     (by simp [cfgValidate, isinstK, isinstC, classOfVal, kindClass]),
   (union_first_match (.prim .int) (.prim .str) PyVal.none []).2.1
     (by simp [cfgValidate, isinstK, isinstC, classOfVal, kindClass, Except.isOk, Except.toBool])
     (by simp [cfgValidate, isinstK, isinstC, classOfVal, kindClass, Except.isOk, Except.toBool])⟩

/-- Inversion of the positional loop of `CFGTupleType.validate`: a
successful `cfgZip` coerces position `i` through its own element type. -/
theorem cfgZip_ok_spec (es : List CFG) (xs : List PyVal) (ps : List String)
    (ys : List PyVal) (h : cfgZip es xs ps = .ok ys) :
    ys.length = min es.length xs.length ∧
    ∀ i (h1 : i < es.length) (h2 : i < xs.length) (h3 : i < ys.length),
      cfgValidate (es.get ⟨i, h1⟩) (xs.get ⟨i, h2⟩) ps = .ok (ys.get ⟨i, h3⟩) := by
  induction es generalizing xs ys with
  | nil =>
      simp [cfgZip] at h
      subst h
      simp
  | cons e es' ih =>
      cases xs with
      | nil =>
          simp [cfgZip] at h
          subst h
          simp
      | cons x xs' =>
          rw [cfgZip] at h
          rcases hv : cfgValidate e x ps with ev | y
          · rw [hv] at h
            simp at h
          · rw [hv] at h
            rcases hz : cfgZip es' xs' ps with ez | ys'
            · rw [hz] at h
              simp at h
            · rw [hz] at h
              simp at h
              subst h
              obtain ⟨hlen, hidx⟩ := ih xs' ys' hz
              constructor
              · simp [hlen]
                omega
              · intro i h1 h2 h3
                cases i with
                | zero => simpa using hv
                | succ j =>
                    simp only [List.length_cons] at h1 h2 h3
                    simpa using hidx j (by omega) (by omega) (by omega)

/-- Claim C3: `CFGTupleType.validate` on a present list value first
requires the length to equal the declared arity, raising the
"Too many/Too few items, expected N ... was M" error otherwise, and then
validates each position against its corresponding element type; concretely
`tuple[int, int]` rejects `[1, 2, 3]` with expected `2`, found `3`, and
accepts `[1, 2]`, returning the tuple `(1, 2)`. -/
theorem tuple_arity (es : List CFG) (xs : List PyVal) (p : List String) :
    (xs.length ≠ es.length →
      cfgValidate (.tupleT es) (.list xs) p
        = .error (.tupleSize p (decide (xs.length > es.length)) es.length xs.length))
    ∧ (∀ r, cfgValidate (.tupleT es) (.list xs) p = .ok r →
        xs.length = es.length ∧
        ∃ ys, r = .tuple ys ∧ ys.length = es.length ∧
          ∀ i (h1 : i < es.length) (h2 : i < xs.length) (h3 : i < ys.length),
            cfgValidate (es.get ⟨i, h1⟩) (xs.get ⟨i, h2⟩) p = .ok (ys.get ⟨i, h3⟩))
    ∧ cfgValidate (.tupleT [.prim .int, .prim .int]) (.list [.int 1, .int 2, .int 3]) []
        = .error (.tupleSize [] true 2 3)
    ∧ cfgValidate (.tupleT [.prim .int, .prim .int]) (.list [.int 1, .int 2]) []
        = .ok (.tuple [.int 1, .int 2]) := by
  refine ⟨?_, ?_, ?_, ?_⟩
  · intro hne
    have h2 : es.length ≠ xs.length := fun e => hne e.symm
    simp [cfgValidate, h2]
  · intro r h
    by_cases hlen : es.length = xs.length
    · rw [cfgValidate] at h
      simp [hlen] at h
      rcases hz : cfgZip es xs p with ez | ys
      · rw [hz] at h
        simp at h
      · rw [hz] at h
        simp at h
        obtain ⟨hys, hidx⟩ := cfgZip_ok_spec es xs p ys hz
        exact ⟨hlen.symm, ys, h.symm, by omega, hidx⟩
    · simp [cfgValidate, hlen] at h
  · simp [cfgValidate]
  · simp [cfgValidate, cfgZip, isinstK, isinstC, classOfVal, kindClass]

/-- Witness for C3: the arity-mismatch branch at `[1, 2, 3]` and the
success branch at `[1, 2]`. -/
theorem tuple_arity_witness :
    cfgValidate (.tupleT [.prim .int, .prim .int]) (.list [.int 1, .int 2, .int 3]) []
      = .error (.tupleSize [] true 2 3)
    ∧ ([PyVal.int 1, .int 2] : List PyVal).length = ([CFG.prim .int, .prim .int] : List CFG).length :=
  ⟨(tuple_arity [.prim .int, .prim .int] [.int 1, .int 2, .int 3] []).1 (by simp),
   ((tuple_arity [.prim .int, .prim .int] [.int 1, .int 2] []).2.1 (.tuple [.int 1, .int 2])
      (by simp [cfgValidate, cfgZip, isinstK, isinstC, classOfVal, kindClass])).1⟩

/-- The element loops of `_type_check_list_`, `_type_check_tuple_` and
`_type_check_set_` run to completion exactly when every element passes
`type_check` against the first declared argument type. -/
theorem firstFailIdx_eq_none_iff (a : PyType) (ps : Parents) (xs : List PyVal) :
    firstFailIdx a ps xs = Option.none ↔
      ∀ x ∈ xs, (typCheck a x ps).isOk = true := by
  induction xs with
  | nil => simp [firstFailIdx]
  | cons x xs ih =>
      rcases h : typCheck a x ps with e | r
      · simp [firstFailIdx, h, Except.isOk, Except.toBool]
      · simp [firstFailIdx, h, Except.isOk, Except.toBool, ih]

/-- A successful `_type_check_tuple_` on a list input returns
`tuple(_value)` of the original elements. -/
theorem tupleT_ok_list (args : List PyType) (xs : List PyVal) (ps : Parents)
    (r : PyVal) (h : typCheck (.tupleT args) (.list xs) ps = .ok r) :
    r = .tuple xs := by
  rw [typCheck.eq_def] at h
  cases args with
  | nil =>
      simp [isMissing] at h
      exact h.symm
  | cons a args' =>
      by_cases hl : args'.length + 1 = xs.length
      · rcases hf : firstFailIdx a (ps ++ [(PyType.tupleT (a :: args'), some 0)]) xs with _ | i
        · simp [isMissing, hl, hf] at h
          exact h.symm
        · simp [isMissing, hl, hf] at h
      · simp [isMissing, hl] at h

/-- Claim C9: a tuple node accepts its present value as a list or a tuple
(both dispatch to the same checks), and every successful validation —
including the `MISSING` default — returns a Python tuple, never a list;
for a list input the result is `tuple(value)` of the original elements. -/
theorem tuple_accepts_list_and_returns_tuple (args : List PyType) (xs : List PyVal)
    (ps : Parents) :
    typCheck (.tupleT args) (.list xs) ps = typCheck (.tupleT args) (.tuple xs) ps
    ∧ (∀ v r, typCheck (.tupleT args) v ps = .ok r → ∃ ys, r = .tuple ys)
    ∧ (∀ r, typCheck (.tupleT args) (.list xs) ps = .ok r → r = .tuple xs) := by
  refine ⟨?_, ?_, fun r h => tupleT_ok_list args xs ps r h⟩
  · rw [typCheck.eq_def, typCheck.eq_def]
    simp [isMissing]
  · intro v r h
    cases v with
    | missing =>
        rw [typCheck.eq_def] at h
        simp [isMissing] at h
        exact ⟨[], h.symm⟩
    | list ys => exact ⟨ys, tupleT_ok_list args ys ps r h⟩
    | tuple ys =>
        have heq : typCheck (.tupleT args) (.list ys) ps
            = typCheck (.tupleT args) (.tuple ys) ps := by
          rw [typCheck.eq_def, typCheck.eq_def]
          simp [isMissing]
        exact ⟨ys, tupleT_ok_list args ys ps r (heq.trans h)⟩
    | none =>
        rw [typCheck.eq_def] at h
        simp [isMissing] at h
    | bool b =>
        rw [typCheck.eq_def] at h
        simp [isMissing] at h
    | int n =>
        rw [typCheck.eq_def] at h
        simp [isMissing] at h
    | str s =>
        rw [typCheck.eq_def] at h
        simp [isMissing] at h
    | set ys =>
        rw [typCheck.eq_def] at h
        simp [isMissing] at h
    | dict ys =>
        rw [typCheck.eq_def] at h
        simp [isMissing] at h

/-- Witness for C9: `tuple[int, int]` accepts both `[1, 2]` and `(1, 2)`
and returns the tuple `(1, 2)` of the original elements. -/
theorem tuple_accepts_list_and_returns_tuple_witness :
    typCheck (.tupleT [.kind .int, .kind .int]) (.list [.int 1, .int 2]) []
      = typCheck (.tupleT [.kind .int, .kind .int]) (.tuple [.int 1, .int 2]) []
    ∧ (PyVal.tuple [.int 1, .int 2]) = .tuple [.int 1, .int 2] :=
  ⟨(tuple_accepts_list_and_returns_tuple [.kind .int, .kind .int] [.int 1, .int 2] []).1,
   (tuple_accepts_list_and_returns_tuple [.kind .int, .kind .int] [.int 1, .int 2] []).2.2
     (.tuple [.int 1, .int 2])
     (by simp [typCheck, firstFailIdx, isMissing, isinstK, isinstC, classOfVal, kindClass])⟩

/-- Claim C10: in the `type_check` engine, the list and set checkers use
the per-element `type_check` results only to detect errors: a successful
list validation returns the input list itself, a successful set validation
returns `set(...)` of the original elements de-duplicated, and validation
succeeds whenever every element checks against the first argument type. -/
theorem list_set_return_original (ps : Parents) :
    (∀ args xs r, typCheck (.listT args) (.list xs) ps = .ok r → r = .list xs)
    ∧ (∀ args xs r, typCheck (.setT args) (.list xs) ps = .ok r → r = .set (pyDedup xs))
    ∧ (∀ a rest xs,
        (∀ x ∈ xs, (typCheck a x (ps ++ [(.listT (a :: rest), some 0)])).isOk = true) →
        typCheck (.listT (a :: rest)) (.list xs) ps = .ok (.list xs))
    ∧ (∀ a rest xs,
        (∀ x ∈ xs, (typCheck a x (ps ++ [(.setT (a :: rest), some 0)])).isOk = true) →
        typCheck (.setT (a :: rest)) (.list xs) ps = .ok (.set (pyDedup xs))) := by
  refine ⟨?_, ?_, ?_, ?_⟩
  · intro args xs r h
    rw [typCheck.eq_def] at h
    cases args with
    | nil =>
        simp [isMissing] at h
        exact h.symm
    | cons a args' =>
        rcases hf : firstFailIdx a (ps ++ [(PyType.listT (a :: args'), some 0)]) xs with _ | i
        · simp [isMissing, hf] at h
          exact h.symm
        · simp [isMissing, hf] at h
  · intro args xs r h
    rw [typCheck.eq_def] at h
    cases args with
    | nil =>
        simp [isMissing] at h
        exact h.symm
    | cons a args' =>
        rcases hf : firstFailIdx a (ps ++ [(PyType.setT (a :: args'), some 0)]) xs with _ | i
        · simp [isMissing, hf] at h
          exact h.symm
        · simp [isMissing, hf] at h
  · intro a rest xs h
    have hf : firstFailIdx a (ps ++ [(.listT (a :: rest), some 0)]) xs = Option.none :=
      (firstFailIdx_eq_none_iff _ _ _).2 h
    rw [typCheck.eq_def]
    simp [isMissing, hf]
  · intro a rest xs h
    have hf : firstFailIdx a (ps ++ [(.setT (a :: rest), some 0)]) xs = Option.none :=
      (firstFailIdx_eq_none_iff _ _ _).2 h
    rw [typCheck.eq_def]
    simp [isMissing, hf]

/-- Witness for C10: `list[int]` on `[1, 1, 2]` returns the very input
list, and `set[int]` on `[1, 1, 2]` returns the de-duplicated set
`{1, 2}` of the original elements. -/
theorem list_set_return_original_witness :
    typCheck (.listT [.kind .int]) (.list [.int 1, .int 1, .int 2]) []
      = .ok (.list [.int 1, .int 1, .int 2])
    ∧ typCheck (.setT [.kind .int]) (.list [.int 1, .int 1, .int 2]) []
      = .ok (.set (pyDedup [.int 1, .int 1, .int 2]))
    ∧ pyDedup [.int 1, .int 1, .int 2] = [.int 1, .int 2] :=
  ⟨(list_set_return_original []).2.2.1 (.kind .int) [] [.int 1, .int 1, .int 2]
     (by intro x hx
         fin_cases hx <;>
           simp [typCheck, isMissing, isinstK, isinstC, classOfVal, kindClass,
             Except.isOk, Except.toBool]),
   (list_set_return_original []).2.2.2 (.kind .int) [] [.int 1, .int 1, .int 2]
     (by intro x hx
         fin_cases hx <;>
           simp [typCheck, isMissing, isinstK, isinstC, classOfVal, kindClass,
             Except.isOk, Except.toBool]),
   by simp [pyDedup, pyInsert, pyMem, pyEq]⟩

/-- A union whose members are all plain classes resolves for `isinstance`. -/
theorem asClasses_of_all (ts : List PyType)
    (h : ∀ t2 ∈ ts, (asClass t2).isSome = true) :
    ∃ cs, asClasses ts = some cs := by
  induction ts with
  | nil => exact ⟨[], rfl⟩
  | cons t0 rest ih =>
      obtain ⟨c0, hc0⟩ := Option.isSome_iff_exists.1 (h t0 (by simp))
      obtain ⟨cs, hcs⟩ := ih (fun x hx => h x (by simp [hx]))
      exact ⟨c0 :: cs, by simp [asClasses, hc0, hcs]⟩

/-- Calling a plain-class annotation yields a non-missing instance of that
class. -/
theorem zeroCall_isinst (t0 : PyType) (c0 : PyClassT) (hc : asClass t0 = some c0) :
    ∃ v0, zeroCall t0 = .ok v0 ∧ isinstC v0 c0 = true ∧ isMissing v0 = false := by
  cases t0 with
  | kind k =>
      cases k with
      | bool =>
          simp only [asClass, Option.some.injEq] at hc
          subst hc
          exact ⟨.bool false, rfl, rfl, rfl⟩
      | int =>
          simp only [asClass, Option.some.injEq] at hc
          subst hc
          exact ⟨.int 0, rfl, rfl, rfl⟩
      | str =>
          simp only [asClass, Option.some.injEq] at hc
          subst hc
          exact ⟨.str "", rfl, rfl, rfl⟩
  | noneT =>
      simp only [asClass, Option.some.injEq] at hc
      subst hc
      exact ⟨.none, rfl, rfl, rfl⟩
  | anyT => simp [asClass] at hc
  | optional t => simp [asClass] at hc
  | union ts => simp [asClass] at hc
  | listT args => simp [asClass] at hc
  | tupleT args => simp [asClass] at hc
  | setT args => simp [asClass] at hc
  | dictT args => simp [asClass] at hc
  | literal vals => simp [asClass] at hc

/-- Claim C1 (counterexample): default idempotence
`validate(n, default(n)) == default(n)` fails in the `type_check` engine.
At `n = tuple[int, int]` the synthesized default is the empty tuple, but
validating it fails the arity check; at scalar and `None` nodes the
default branch itself is unreachable (the kind check precedes the
`MISSING` check); a one-argument `dict` node rejects its own empty-dict
default; a union or `Optional` whose (first) member is a parameterized
generic raises in `isinstance` when validating its default; and the custom
validator `GreaterThan[5]` synthesizes default `5` and then rejects it. -/
theorem default_idempotence_counterexample :
    typCheck (.tupleT [.kind .int, .kind .int]) .missing [] = .ok (.tuple [])
    ∧ typCheck (.tupleT [.kind .int, .kind .int]) (.tuple []) []
      = .error (.cfg [(.tupleT [.kind .int, .kind .int], Option.none)] (.sizeMismatch 2 0))
    ∧ typCheck (.tupleT [.kind .int, .kind .int]) (.tuple []) []
      ≠ typCheck (.tupleT [.kind .int, .kind .int]) .missing []
    ∧ typCheck (.kind .int) .missing []
      = .error (.cfg [(.kind .int, Option.none)] (.expectedButWas "int" "Missing"))
    ∧ typCheck PyType.noneT .missing []
      = .error (.cfg [(PyType.noneT, Option.none)] (.expectedNone "Missing"))
    ∧ typCheck (.dictT [.kind .str]) .missing [] = .ok (.dict [])
    ∧ typCheck (.dictT [.kind .str]) (.dict []) []
      = .error (.cfg [(.dictT [.kind .str], Option.none)] .dictNeedsTwo)
    ∧ typCheck (.union [.listT [.kind .int], .kind .int]) .missing [] = .ok (.list [])
    ∧ typCheck (.union [.listT [.kind .int], .kind .int]) (.list []) []
      = .error (.pyExc "isinstance() argument 2 cannot be a parameterized generic")
    ∧ typCheck (.optional (.listT [.kind .int])) .missing [] = .ok .none
    ∧ typCheck (.optional (.listT [.kind .int])) PyVal.none []
      = .error (.pyExc "isinstance() argument 2 cannot be a parameterized generic")
    ∧ ctValidate (GreaterThanCT (.int 5)) .missing = .ok (.int 5)
    ∧ ctValidate (GreaterThanCT (.int 5)) (.int 5)
      = .error (.fromTypeError "Expected value to be greater than 5; was 5") := by
  refine ⟨?_, ?_, ?_, ?_, ?_, ?_, ?_, ?_, ?_, ?_, ?_, ?_, ?_⟩
  · simp [typCheck, isMissing]
  · simp [typCheck, isMissing]
  · simp [typCheck, isMissing]
  · simp [typCheck, isMissing, isinstK, isinstC, classOfVal, kindClass, kindName, pyTypeName]
  · simp [typCheck, isMissing, pyTypeName]
  · simp [typCheck, isMissing]
  · simp [typCheck, isMissing]
  · simp [typCheck, isMissing, zeroCall]
  · simp [typCheck, isMissing, asClasses, asClass]
  · simp [typCheck, isMissing]
  · simp [typCheck, isMissing, asClass]
  · simp [ctValidate, GreaterThanCT, ctArgCheck, ctVarargCheck, lookupAnno, isinstC,
      classOfVal, isMissing, ctDefaultValue]
  · simp [ctValidate, GreaterThanCT, ctArgCheck, ctVarargCheck, lookupAnno, isinstC,
      classOfVal, isMissing, greaterThanBody, asIntVal, pyStr, pyRepr]
    rfl

/-- Claim C1 (amended): default idempotence
`validate(n, validate(n, MISSING)) == validate(n, MISSING)` holds in the
`type_check` engine for `Any`, `Optional` of a plain class, unions of
plain classes, `list` and `set` nodes, `dict` nodes with zero or two type
arguments, zero-argument tuples, and nonempty `Literal`s of scalar values;
it fails for fixed-arity tuples, scalar and `None` nodes, one-argument
`dict` nodes, unions/`Optional`s with parameterized members, and `ARG`-
defaulted custom validators (see the counterexample). -/
theorem default_idempotence_amended (t : PyType) (h : goodNode t = true) :
    ∃ v, typCheck t .missing [] = .ok v ∧ typCheck t v [] = .ok v := by
  cases t with
  | noneT => simp [goodNode] at h
  | kind k => simp [goodNode] at h
  | anyT => exact ⟨.none, by simp [typCheck, isMissing], by simp [typCheck, isMissing]⟩
  | optional t0 =>
      refine ⟨.none, by simp [typCheck, isMissing], ?_⟩
      simp only [goodNode] at h
      obtain ⟨c, hc⟩ := Option.isSome_iff_exists.1 h
      simp [typCheck, isMissing, hc, isinstC, classOfVal]
  | union ts =>
      cases ts with
      | nil => simp [goodNode] at h
      | cons t0 rest =>
          simp only [goodNode, List.all_eq_true] at h
          obtain ⟨c0, hc0⟩ := Option.isSome_iff_exists.1 (h t0 (by simp))
          obtain ⟨v0, hz, hinst, hm⟩ := zeroCall_isinst t0 c0 hc0
          obtain ⟨cs, hcs⟩ := asClasses_of_all rest (fun x hx => h x (by simp [hx]))
          refine ⟨v0, ?_, ?_⟩
          · rw [typCheck.eq_def]
            simp [isMissing, hz]
          · rw [typCheck.eq_def]
            simp [hm, asClasses, hc0, hcs, hinst]
  | listT args =>
      refine ⟨.list [], by simp [typCheck, isMissing], ?_⟩
      cases args with
      | nil => simp [typCheck, isMissing]
      | cons a rest => simp [typCheck, isMissing, firstFailIdx]
  | setT args =>
      refine ⟨.set [], by simp [typCheck, isMissing], ?_⟩
      cases args with
      | nil => simp [typCheck, isMissing, pyDedup]
      | cons a rest => simp [typCheck, isMissing, firstFailIdx, pyDedup]
  | dictT args =>
      refine ⟨.dict [], by simp [typCheck, isMissing], ?_⟩
      cases args with
      | nil => simp [typCheck, isMissing]
      | cons a rest =>
          cases rest with
          | nil => simp [goodNode] at h
          | cons b rest' => simp [typCheck, isMissing, dictFirstFail]
  | tupleT args =>
      simp only [goodNode, List.isEmpty_eq_true] at h
      subst h
      exact ⟨.tuple [], by simp [typCheck, isMissing], by simp [typCheck, isMissing]⟩
  | literal vals =>
      cases vals with
      | nil => simp [goodNode] at h
      | cons v0 rest =>
          simp only [goodNode] at h
          refine ⟨v0, by simp [typCheck, isMissing], ?_⟩
          cases v0 <;> simp [scalarVal] at h <;>
            simp [typCheck, isMissing, pyMem, pyEq]

/-- Witness for the amended C1 at the union `int | str`: the default `0`
revalidates to itself. -/
theorem default_idempotence_amended_witness :
    goodNode (.union [.kind .int, .kind .str]) = true
    ∧ ∃ v, typCheck (.union [.kind .int, .kind .str]) .missing [] = .ok v
        ∧ typCheck (.union [.kind .int, .kind .str]) v [] = .ok v :=
  ⟨by simp [goodNode, asClass],
   default_idempotence_amended (.union [.kind .int, .kind .str])
     (by simp [goodNode, asClass])⟩

end Tcfg
